import Mathlib

set_option maxRecDepth 100000

/-!
Shallow embedding of the HLSL-to-GLSL shader playground
(src/utils/webgl.ts, src/components/ShaderPreview.tsx,
src/services/geminiService.ts, src/unnamed/part_000 = App.tsx).

The WebGL2 driver is modelled as an oracle (`Driver`) saying whether each
allocation / compilation / link succeeds and what diagnostic text it
produces; driver-side resource ownership is tracked explicitly in
`GLState` so that leak claims are statable.  JavaScript strings are
modelled as Lean `String`, JS `includes`/`trim` and the `||` default
idiom are given faithful list-level models below.
-/

/-- Model of JavaScript `String.prototype.includes`: substring occurrence. -/
def jsIncludes (s pat : String) : Bool := decide (pat.data <:+: s.data)

/-- Model of JavaScript `String.prototype.trim`: strip leading and trailing
whitespace characters. -/
def jsTrim (s : String) : String :=
  ⟨((s.data.dropWhile Char.isWhitespace).reverse.dropWhile Char.isWhitespace).reverse⟩

/-- Model of the JavaScript idiom `x || dflt` on a string that may also be
`undefined`/`null` (`none`): the default is taken when the value is absent
or is the empty string (both falsy). -/
def jsOr (o : Option String) (dflt : String) : String :=
  match o with
  | none => dflt
  | some s => if s = "" then dflt else s

/-! ## src/utils/webgl.ts -/

/-- WebGL enum `gl.VERTEX_SHADER`. -/
def VERTEX_SHADER : Nat := 35633

/-- WebGL enum `gl.FRAGMENT_SHADER`. -/
def FRAGMENT_SHADER : Nat := 35632

/-- WebGL enum `gl.TRIANGLES`. -/
def TRIANGLES : Nat := 4

/-- `DEFAULT_VERTEX_SHADER` from src/utils/webgl.ts, transcribed byte for
byte. -/
def DEFAULT_VERTEX_SHADER : String :=
  "#version 300 es\nin vec4 a_position;\nvoid main() \x7b\n  gl_Position = a_position;\n\x7d\n"

/-- Driver-side resource bookkeeping: which handles (numbered by a fresh
counter) are currently alive in the WebGL context, plus everything sent to
`console.warn` (`none` models a `null` info log). -/
structure GLState where
  nextId : Nat
  liveShaders : List Nat
  livePrograms : List Nat
  liveBuffers : List Nat
  liveVertexArrays : List Nat
  consoleWarnings : List (Option String)
deriving DecidableEq

/-- The empty WebGL context: no handles allocated, nothing warned. -/
def glInit : GLState :=
  { nextId := 0, liveShaders := [], livePrograms := [], liveBuffers := [],
    liveVertexArrays := [], consoleWarnings := [] }

/-- Oracle for everything the WebGL2 driver decides: whether `getContext`,
`createShader` and `createProgram` return non-null, whether a given source
compiles for a given stage, whether the program links, the info logs, and
the uniform/attribute locations of the linked program. -/
structure Driver where
  contextOk : Bool
  allocShaderOk : Bool
  allocProgramOk : Bool
  compileOk : Nat → String → Bool
  shaderInfoLog : String → Option String
  linkOk : Bool
  programInfoLog : Option String
  uniformLocation : String → Option Nat
  attribLocation : String → Nat

/-- `createShader` from src/utils/webgl.ts: allocate a shader handle
(null-checked), hand the source to the driver, and on compile failure
`console.warn` the info log, delete the handle and return `null` (`none`).
Note that the info log is never part of the return value. -/
def createShader (drv : Driver) (st : GLState) (ty : Nat) (source : String) :
    Option Nat × GLState :=
  if drv.allocShaderOk then
    let shader := st.nextId
    let st1 : GLState :=
      { st with nextId := shader + 1, liveShaders := shader :: st.liveShaders }
    if drv.compileOk ty source then (some shader, st1)
    else
      (none,
        { st1 with
          liveShaders := st1.liveShaders.erase shader,
          consoleWarnings := st1.consoleWarnings ++ [drv.shaderInfoLog source] })
  else (none, st)

/-- `createProgram` from src/utils/webgl.ts: allocate a program handle,
attach both shaders, link; on link failure `console.warn` the program info
log, delete the program and return `null`. -/
def createProgram (drv : Driver) (st : GLState) (vertexShader fragmentShader : Nat) :
    Option Nat × GLState :=
  if drv.allocProgramOk then
    let program := st.nextId
    let st1 : GLState :=
      { st with nextId := program + 1, livePrograms := program :: st.livePrograms }
    if drv.linkOk then (some program, st1)
    else
      (none,
        { st1 with
          livePrograms := st1.livePrograms.erase program,
          consoleWarnings := st1.consoleWarnings ++ [drv.programInfoLog] })
  else (none, st)

/-- The text `formatForPreview` puts in front of the user code when it
wraps it (src/utils/webgl.ts lines 47-55), byte for byte. -/
def previewHeader : String :=
  "#version 300 es\nprecision highp float;\n\nuniform vec2 u_resolution;\nuniform float u_time;\nuniform vec2 u_mouse;\n\nout vec4 fragColor;\n\n"

/-- The text `formatForPreview` puts after the user code (src/utils/webgl.ts
lines 57-70), byte for byte; note it ends with a whole fallback
`void main()` block, so the user code is not the tail of the result. -/
def previewFooter : String :=
  "\n\n// Fallback main if user just wrote functions but no main\n// This is a naive heuristic\nvoid main() \x7b\n    vec2 uv = gl_FragCoord.xy / u_resolution.xy;\n    // Try to call user mainImage if it exists (Shadertoy style)\n    // else default main\n    // This part is tricky without parsing. \n    // We expect the user to write a \x27void main()\x27 for standard GLSL output.\n    // If they didn\x27t, we can\x27t really guess.\n    \n    // However, if the transpiler output standard GLSL, it usually includes main().\n\x7d\n"

/-- `formatForPreview` from src/utils/webgl.ts: return the input unchanged
when it already mentions `#version`, otherwise wrap it between
`previewHeader` and `previewFooter`. -/
def formatForPreview (userCode : String) : String :=
  if jsIncludes userCode "#version" then userCode
  else previewHeader ++ userCode ++ previewFooter

/-! ## src/components/ShaderPreview.tsx

The component's `useEffect` body (lines 15-121) is embedded as a function
from the driver oracle, the `fragmentCode` prop, the `isActive` prop, the
current clock reading and the previous system state to a new system state,
an optional render-loop environment (present exactly when the program went
Live) and a description of the cleanup closure the effect returned.  The
host's `requestAnimationFrame` facility is modelled by `frameReq` (the
stored revocable handle, `requestRef.current`) and a fresh-handle counter.
-/

/-- Observable state of one mounted preview surface: the WebGL context
bookkeeping, the stored animation-frame handle, the resize-listener
registration, and the component's `error`/`compiled` React state
(`error = none` models `null`). -/
structure SysState where
  gl : GLState
  frameReq : Option Nat
  nextReq : Nat
  resizeListener : Bool
  error : Option String
  compiled : Bool
deriving DecidableEq

/-- Initial state of a freshly mounted preview surface. -/
def initSys : SysState :=
  { gl := glInit, frameReq := none, nextReq := 0, resizeListener := false,
    error := none, compiled := false }

/-- Which cleanup closure the effect returned: none at all (early return
paths), the failure-path closure (lines 52-55 / 62-65: remove the resize
listener and cancel the pending frame), or the Live-path closure (lines
114-120: additionally delete the program and the two shaders — and nothing
else). -/
inductive Cleanup where
  | noCleanup : Cleanup
  | failCleanup : Cleanup
  | liveCleanup (program vs fs : Nat) : Cleanup
deriving DecidableEq

/-- Run a returned cleanup closure against the current state, exactly as
written in the source: every closure cancels the stored frame handle and
unregisters the resize listener; only the Live closure also deletes the
program and the two shaders.  The vertex buffer and the vertex array are
not touched by any closure. -/
def runCleanup : Cleanup → SysState → SysState
  | Cleanup.noCleanup, s => s
  | Cleanup.failCleanup, s => { s with resizeListener := false, frameReq := none }
  | Cleanup.liveCleanup program vs fs, s =>
      { s with
        resizeListener := false,
        frameReq := none,
        gl := { s.gl with
                livePrograms := s.gl.livePrograms.erase program,
                liveShaders := (s.gl.liveShaders.erase vs).erase fs } }

/-- Everything the per-frame `render` closure captured when the program
went Live (lines 71-96): the program and vertex-array handles, the buffer
contents uploaded for the full-screen quad, the three uniform locations,
and the `startTime` clock reading. -/
structure RenderEnv where
  program : Nat
  vao : Nat
  bufferData : List ℚ
  timeLocation : Option Nat
  resolutionLocation : Option Nat
  mouseLocation : Option Nat
  startTime : ℚ
deriving DecidableEq

/-- The full-screen-quad vertex positions uploaded at lines 75-82: six
2-component vertices, two triangles covering the normalized device
coordinate square. -/
def quadPositions : List ℚ := [-1, -1, 1, -1, -1, 1, -1, 1, 1, -1, 1, 1]

/-- The i-th 2D vertex stored in `quadPositions`. -/
def quadVertex (i : Nat) : ℚ × ℚ :=
  (quadPositions.getD (2 * i) 0, quadPositions.getD (2 * i + 1) 0)

/-- A point lies in the (closed) triangle `A B C`: it is a convex
combination of the three corners. -/
def inTriangle (A B C P : ℚ × ℚ) : Prop :=
  ∃ a b c : ℚ, 0 ≤ a ∧ 0 ≤ b ∧ 0 ≤ c ∧ a + b + c = 1 ∧
    P.1 = a * A.1 + b * B.1 + c * C.1 ∧ P.2 = a * A.2 + b * B.2 + c * C.2

/-- Result of running the effect body once. -/
structure EffectOut where
  state : SysState
  env : Option RenderEnv
  cleanup : Cleanup

/-- The `useEffect` body of `ShaderPreview` (lines 15-121).  `now` is the
`performance.now()` reading taken at line 96 when the program goes Live.
Paths, in source order: inactive / no canvas → plain return; no WebGL2
context → set error, return; compile default vertex shader then the
fragment code; if either failed → set a generic error, and when the
fragment stage failed allocate a throw-away shader only to read its info
log (that shader is never deleted) and overwrite the error with the raw
log; link; on link failure → set error; on success → create the quad
buffer and vertex array, look up the three uniform locations, reset the
frame clock and schedule the first frame, storing the revocable handle. -/
def runPreviewEffect (drv : Driver) (isActive : Bool) (fragmentCode : String)
    (now : ℚ) (s0 : SysState) : EffectOut :=
  if ¬ isActive then ⟨s0, none, Cleanup.noCleanup⟩
  else if ¬ drv.contextOk then
    ⟨{ s0 with error := some "WebGL2 not supported" }, none, Cleanup.noCleanup⟩
  else
    let s : SysState := { s0 with resizeListener := true }
    let p1 := createShader drv s.gl VERTEX_SHADER DEFAULT_VERTEX_SHADER
    let p2 := createShader drv p1.2 FRAGMENT_SHADER fragmentCode
    let s : SysState := { s with gl := p2.2 }
    match p1.1, p2.1 with
    | some vs, some fs =>
      let p3 := createProgram drv s.gl vs fs
      let s : SysState := { s with gl := p3.2 }
      match p3.1 with
      | some program =>
        let buf := s.gl.nextId
        let gl1 : GLState :=
          { s.gl with
            nextId := buf + 1,
            liveBuffers := buf :: s.gl.liveBuffers }
        let vao := gl1.nextId
        let gl2 : GLState :=
          { gl1 with
            nextId := vao + 1,
            liveVertexArrays := vao :: gl1.liveVertexArrays }
        let env : RenderEnv :=
          { program := program,
            vao := vao,
            bufferData := quadPositions,
            timeLocation := drv.uniformLocation "u_time",
            resolutionLocation := drv.uniformLocation "u_resolution",
            mouseLocation := drv.uniformLocation "u_mouse",
            startTime := now }
        ⟨{ s with
           gl := gl2,
           error := none,
           compiled := true,
           frameReq := some s.nextReq,
           nextReq := s.nextReq + 1 },
          some env, Cleanup.liveCleanup program vs fs⟩
      | none =>
        ⟨{ s with error := some "Program linking failed.", compiled := false },
          none, Cleanup.failCleanup⟩
    | vsOpt, fsOpt =>
      let s : SysState :=
        { s with
          error := some "Shader compilation failed. Check the logs below or code syntax.",
          compiled := false }
      let s : SysState :=
        if fsOpt.isNone then
          if drv.allocShaderOk then
            let temp := s.gl.nextId
            { s with
              gl := { s.gl with
                      nextId := temp + 1,
                      liveShaders := temp :: s.gl.liveShaders },
              error := drv.shaderInfoLog fragmentCode }
          else s
        else s
      ⟨s, none, Cleanup.failCleanup⟩

/-- One WebGL call issued by the per-frame `render` closure. -/
inductive GLCommand where
  | useProgram (p : Nat) : GLCommand
  | bindVertexArray (v : Nat) : GLCommand
  | uniform1f (loc : Nat) (x : ℚ) : GLCommand
  | uniform2f (loc : Nat) (x y : ℚ) : GLCommand
  | drawArrays (mode first count : Nat) : GLCommand
deriving DecidableEq

/-- Whether a command is a draw call. -/
def isDrawCommand : GLCommand → Bool
  | GLCommand.drawArrays _ _ _ => true
  | _ => false

/-- The sequence of WebGL calls one iteration of `render` issues (lines
98-110), at frame timestamp `t` with current canvas pixel size `w × h`:
select the program, bind the vertex array, set the elapsed-time uniform to
`(t - startTime) * 0.001` (milliseconds scaled to seconds) when its
location exists, set the resolution uniform when its location exists, and
issue one `drawArrays(TRIANGLES, 0, 6)` call. -/
def renderCommands (env : RenderEnv) (t w h : ℚ) : List GLCommand :=
  [GLCommand.useProgram env.program, GLCommand.bindVertexArray env.vao] ++
  (match env.timeLocation with
   | some l => [GLCommand.uniform1f l ((t - env.startTime) * (1 / 1000))]
   | none => []) ++
  (match env.resolutionLocation with
   | some l => [GLCommand.uniform2f l w h]
   | none => []) ++
  [GLCommand.drawArrays TRIANGLES 0 6]

/-- One iteration of `render` as a state transformer: it issues its
commands and stores the handle of the next scheduled frame in
`requestRef.current` (line 109). -/
def renderStep (env : RenderEnv) (t w h : ℚ) (newHandle : Nat) (s : SysState) :
    List GLCommand × SysState :=
  (renderCommands env t w h, { s with frameReq := some newHandle })

/-! ## src/services/geminiService.ts

The remote completion call `ai.models.generateContent` is modelled by its
observable outcome: the transport threw, the response text was falsy, the
response text was present but `JSON.parse` threw, or it parsed to an
object whose `code` / `explanation` fields may each be absent.  Each
service function is a pure function of the input and that outcome; the
extra `Bool` returned by `transpileShader` records whether the remote
request was issued at all. -/

/-- Outcome of one `generateContent` call, as observed by the JSON-mode
services (`transpileShader`, `optimizeShader`). -/
inductive GenOutcome where
  | transportError (msg : String) : GenOutcome
  | emptyText : GenOutcome
  | unparsable (msg : String) : GenOutcome
  | parsed (code explanation : Option String) : GenOutcome
deriving DecidableEq

/-- Outcome of one `generateContent` call, as observed by `analyzeShader`
(plain text, no JSON parsing; `none` models absent `response.text`). -/
inductive AnalyzeOutcome where
  | transportError (msg : String) : AnalyzeOutcome
  | responseText (t : Option String) : AnalyzeOutcome
deriving DecidableEq

/-- `transpileShader` from src/services/geminiService.ts: blank input is
answered locally without any remote request; otherwise the request is
issued and a transport error, an empty response, or a JSON parse error is
re-thrown as `Transpilation failed: …`, while a parsed response is
returned with per-field fallbacks.  The second component records whether
the remote request was issued. -/
def transpileShader (code sourceLang targetLang : String) (remote : GenOutcome) :
    Except String (String × String) × Bool :=
  if jsTrim code = "" then (Except.ok ("", "No code provided."), false)
  else
    ((match remote with
      | GenOutcome.transportError m => Except.error ("Transpilation failed: " ++ m)
      | GenOutcome.emptyText =>
          Except.error "Transpilation failed: Empty response from AI"
      | GenOutcome.unparsable m => Except.error ("Transpilation failed: " ++ m)
      | GenOutcome.parsed c e =>
          Except.ok (jsOr c "// Error parsing generated code",
                     jsOr e "No explanation provided.")),
     true)

/-- `optimizeShader` from src/services/geminiService.ts: a falsy response
text is parsed as the literal `\x7b\x7d`, so the input code itself is the
fallback; transport and parse errors are re-thrown as
`Optimization failed: …`. -/
def optimizeShader (code lang : String) (remote : GenOutcome) :
    Except String (String × String) :=
  match remote with
  | GenOutcome.transportError m => Except.error ("Optimization failed: " ++ m)
  | GenOutcome.emptyText => Except.ok (code, "Could not optimize.")
  | GenOutcome.unparsable m => Except.error ("Optimization failed: " ++ m)
  | GenOutcome.parsed c e => Except.ok (jsOr c code, jsOr e "Could not optimize.")

/-- `analyzeShader` from src/services/geminiService.ts: every failure is
caught and converted into the resolved string `Analysis failed: …`; a
falsy response text resolves to `No analysis generated.`.  The codomain is
`String`, not `Except`: the promise never rejects. -/
def analyzeShader (code lang : String) (remote : AnalyzeOutcome) : String :=
  match remote with
  | AnalyzeOutcome.transportError m => "Analysis failed: " ++ m
  | AnalyzeOutcome.responseText t => jsOr t "No analysis generated."

/-! ## src/unnamed/part_000 (App.tsx) -/

/-- The App component state touched by the three action handlers:
`inputCode`, `outputCode`, `explanation`, the log list (modelled as
severity-message pairs, newest first) and the `isProcessing` flag. -/
structure AppState where
  inputCode : String
  outputCode : String
  explanation : String
  logs : List (String × String)
  isProcessing : Bool
deriving DecidableEq

/-- `addLog` from App: prepend a new entry (newest first). -/
def addLog (ty msg : String) (st : AppState) : AppState :=
  { st with logs := (ty, msg) :: st.logs }

/-- `handleTranspile` from App (lines 45-64), as a function of the awaited
promise outcome: on success store the new code and explanation and log
success; on rejection only log the error message.  `isProcessing` is set
for the duration and cleared in `finally`. -/
def handleTranspile (st : AppState) (inputLang outputLang : String)
    (result : Except String (String × String)) : AppState :=
  let st1 := addLog "info" ("Compiling " ++ inputLang ++ " to " ++ outputLang ++ "...")
    { st with isProcessing := true }
  let st2 :=
    match result with
    | Except.ok r =>
        addLog "success" "Compilation successful."
          { st1 with outputCode := r.1, explanation := r.2 }
    | Except.error msg => addLog "error" msg st1
  { st2 with isProcessing := false }

/-- `handleOptimize` from App (lines 66-80): no-op on empty input
(JavaScript falsy check); on success the source pane is replaced and two
entries logged; on rejection only the error is logged. -/
def handleOptimize (st : AppState) (result : Except String (String × String)) :
    AppState :=
  if st.inputCode = "" then st
  else
    let st1 := addLog "info" "Optimizing source code..." { st with isProcessing := true }
    let st2 :=
      match result with
      | Except.ok r =>
          addLog "info" ("Notes: " ++ r.2)
            (addLog "success" "Optimization complete." { st1 with inputCode := r.1 })
      | Except.error msg => addLog "error" msg st1
    { st2 with isProcessing := false }

/-- `handleAnalyze` from App (lines 82-95): no-op on empty input; on
success the explanation pane is replaced; on rejection only the error is
logged. -/
def handleAnalyze (st : AppState) (result : Except String String) : AppState :=
  if st.inputCode = "" then st
  else
    let st1 := addLog "info" "Analyzing shader..." { st with isProcessing := true }
    let st2 :=
      match result with
      | Except.ok r => addLog "success" "Analysis complete." { st1 with explanation := r }
      | Except.error msg => addLog "error" msg st1
    { st2 with isProcessing := false }

/-! ## Concrete driver oracles used by witnesses and counterexamples -/

/-- A fully co-operative driver: everything allocates, compiles and links,
and the three preview uniforms get distinct locations. -/
def okDriver : Driver :=
  { contextOk := true,
    allocShaderOk := true,
    allocProgramOk := true,
    compileOk := fun _ _ => true,
    shaderInfoLog := fun _ => some "",
    linkOk := true,
    programInfoLog := some "",
    uniformLocation := fun nm =>
      if nm = "u_time" then some 1
      else if nm = "u_resolution" then some 2
      else some 3,
    attribLocation := fun _ => 0 }

/-- A driver whose fragment stage always fails to compile, reporting an
empty info log, while the fixed vertex shader compiles. -/
def fragFailDriver : Driver :=
  { contextOk := true,
    allocShaderOk := true,
    allocProgramOk := true,
    compileOk := fun ty _ => ty == VERTEX_SHADER,
    shaderInfoLog := fun _ => some "",
    linkOk := true,
    programInfoLog := some "",
    uniformLocation := fun _ => none,
    attribLocation := fun _ => 0 }

/-- A driver on which every compilation fails with an empty info log. -/
def compileFailDriver : Driver :=
  { contextOk := true,
    allocShaderOk := true,
    allocProgramOk := true,
    compileOk := fun _ _ => false,
    shaderInfoLog := fun _ => some "",
    linkOk := false,
    programInfoLog := none,
    uniformLocation := fun _ => none,
    attribLocation := fun _ => 0 }

/-! ## Theorems -/

/-- Full characterisation of the effect body when everything succeeds:
from any prior state, the two shaders, the program, the quad buffer and
the vertex array are allocated in that order, the render environment
captures the uniform locations and a fresh `startTime`, the first frame is
scheduled, and the returned cleanup is the Live closure over the program
and the two shaders. -/
theorem runPreviewEffect_success (drv : Driver) (frag : String) (now : ℚ)
    (s0 : SysState)
    (hctx : drv.contextOk = true)
    (halloc : drv.allocShaderOk = true)
    (hprog : drv.allocProgramOk = true)
    (hvs : drv.compileOk VERTEX_SHADER DEFAULT_VERTEX_SHADER = true)
    (hfs : drv.compileOk FRAGMENT_SHADER frag = true)
    (hlink : drv.linkOk = true) :
    runPreviewEffect drv true frag now s0 =
      ⟨{ gl := { nextId := s0.gl.nextId + 5,
                 liveShaders := (s0.gl.nextId + 1) :: s0.gl.nextId :: s0.gl.liveShaders,
                 livePrograms := (s0.gl.nextId + 2) :: s0.gl.livePrograms,
                 liveBuffers := (s0.gl.nextId + 3) :: s0.gl.liveBuffers,
                 liveVertexArrays := (s0.gl.nextId + 4) :: s0.gl.liveVertexArrays,
                 consoleWarnings := s0.gl.consoleWarnings },
         frameReq := some s0.nextReq, nextReq := s0.nextReq + 1,
         resizeListener := true, error := none, compiled := true },
        some { program := s0.gl.nextId + 2, vao := s0.gl.nextId + 4,
               bufferData := quadPositions,
               timeLocation := drv.uniformLocation "u_time",
               resolutionLocation := drv.uniformLocation "u_resolution",
               mouseLocation := drv.uniformLocation "u_mouse",
               startTime := now },
        Cleanup.liveCleanup (s0.gl.nextId + 2) s0.gl.nextId (s0.gl.nextId + 1)⟩ := by
  simp [runPreviewEffect, createShader, createProgram, hctx, halloc, hprog, hvs,
    hfs, hlink]

/-- C1 counterexample: run the preview effect on a driver whose fragment
stage fails with an empty info log (`fragFailDriver`), then run the
cleanup the effect returned.  The final error shown is the empty string
(not a non-empty log), and the successfully compiled vertex shader
(handle 0) and the temporary log-fetch shader (handle 2) are still live
after cleanup — the attempt's driver resources are not all released,
refuting the claim.  (No program exists, as the claim also demands.) -/
theorem c1_fragment_failure_counterexample :
    (runPreviewEffect fragFailDriver true "bad" 0 initSys).env = none ∧
    (runCleanup (runPreviewEffect fragFailDriver true "bad" 0 initSys).cleanup
        (runPreviewEffect fragFailDriver true "bad" 0 initSys).state).gl.liveShaders =
      [2, 0] ∧
    (runCleanup (runPreviewEffect fragFailDriver true "bad" 0 initSys).cleanup
        (runPreviewEffect fragFailDriver true "bad" 0 initSys).state).gl.liveShaders ≠
      [] ∧
    (runCleanup (runPreviewEffect fragFailDriver true "bad" 0 initSys).cleanup
        (runPreviewEffect fragFailDriver true "bad" 0 initSys).state).error = some "" ∧
    (runCleanup (runPreviewEffect fragFailDriver true "bad" 0 initSys).cleanup
        (runPreviewEffect fragFailDriver true "bad" 0 initSys).state).compiled = false ∧
    (runCleanup (runPreviewEffect fragFailDriver true "bad" 0 initSys).cleanup
        (runPreviewEffect fragFailDriver true "bad" 0 initSys).state).gl.livePrograms =
      [] := by
  decide

/-- C1 amended: for every driver on which the fixed vertex shader compiles
but the fragment source does not, the effect run from a fresh mount ends
with `compiled = false` and no render environment or program handle, the
displayed error is the driver's raw fragment info log (which may be empty
or null), and the pending frame callback is revoked; however the vertex
shader (handle 0) and the temporary log-fetch shader (handle 2) survive
the returned cleanup — they are never released — and the diagnostic also
lands in the console warnings unmodified. -/
theorem c1_fragment_failure_amended (drv : Driver) (frag : String) (now : ℚ)
    (hctx : drv.contextOk = true)
    (halloc : drv.allocShaderOk = true)
    (hvs : drv.compileOk VERTEX_SHADER DEFAULT_VERTEX_SHADER = true)
    (hfs : drv.compileOk FRAGMENT_SHADER frag = false) :
    (runPreviewEffect drv true frag now initSys).env = none ∧
    runCleanup (runPreviewEffect drv true frag now initSys).cleanup
        (runPreviewEffect drv true frag now initSys).state =
      { gl := { nextId := 3, liveShaders := [2, 0], livePrograms := [],
                liveBuffers := [], liveVertexArrays := [],
                consoleWarnings := [drv.shaderInfoLog frag] },
        frameReq := none, nextReq := 0, resizeListener := false,
        error := drv.shaderInfoLog frag, compiled := false } := by
  simp [runPreviewEffect, createShader, runCleanup, initSys, glInit, hctx,
    halloc, hvs, hfs]

/-- Witness for the amended C1 at the concrete failing driver. -/
theorem c1_fragment_failure_amended_witness :
    (runPreviewEffect fragFailDriver true "bad" 7 initSys).env = none ∧
    runCleanup (runPreviewEffect fragFailDriver true "bad" 7 initSys).cleanup
        (runPreviewEffect fragFailDriver true "bad" 7 initSys).state =
      { gl := { nextId := 3, liveShaders := [2, 0], livePrograms := [],
                liveBuffers := [], liveVertexArrays := [],
                consoleWarnings := [fragFailDriver.shaderInfoLog "bad"] },
        frameReq := none, nextReq := 0, resizeListener := false,
        error := fragFailDriver.shaderInfoLog "bad", compiled := false } :=
  c1_fragment_failure_amended fragFailDriver "bad" 7 (by decide) (by decide)
    (by decide) (by decide)

/-- C3 counterexample: activate on a fully co-operative driver, then run
the cleanup the effect returned (deactivation/unmount).  The vertex
buffer (handle 3) and the vertex array (handle 4) are still live: the
cleanup releases only the program and the two shaders, so deactivation
does not leave zero live driver handles, refuting the claim. -/
theorem c3_cleanup_counterexample :
    (runCleanup (runPreviewEffect okDriver true "void main() \x7b\x7d" 0 initSys).cleanup
        (runPreviewEffect okDriver true "void main() \x7b\x7d" 0 initSys).state).gl.liveBuffers =
      [3] ∧
    (runCleanup (runPreviewEffect okDriver true "void main() \x7b\x7d" 0 initSys).cleanup
        (runPreviewEffect okDriver true "void main() \x7b\x7d" 0 initSys).state).gl.liveVertexArrays =
      [4] ∧
    ¬ ((runCleanup (runPreviewEffect okDriver true "void main() \x7b\x7d" 0 initSys).cleanup
          (runPreviewEffect okDriver true "void main() \x7b\x7d" 0 initSys).state).gl.liveBuffers =
        [] ∧
       (runCleanup (runPreviewEffect okDriver true "void main() \x7b\x7d" 0 initSys).cleanup
          (runPreviewEffect okDriver true "void main() \x7b\x7d" 0 initSys).state).gl.liveVertexArrays =
        []) := by
  decide

/-- C3 amended: deactivating a Live preview runs the returned Live
cleanup: the pending frame callback is revoked, the resize listener is
removed, and both shaders and the linked program are released; running
the cleanup a second time changes nothing (idempotence).  However the
vertex buffer (handle 3) and the vertex array (handle 4) are not
released, so the driver-handle count after deactivation is two, not
zero. -/
theorem c3_cleanup_amended (drv : Driver) (frag : String) (now : ℚ)
    (hctx : drv.contextOk = true)
    (halloc : drv.allocShaderOk = true)
    (hprog : drv.allocProgramOk = true)
    (hvs : drv.compileOk VERTEX_SHADER DEFAULT_VERTEX_SHADER = true)
    (hfs : drv.compileOk FRAGMENT_SHADER frag = true)
    (hlink : drv.linkOk = true) :
    (runPreviewEffect drv true frag now initSys).cleanup = Cleanup.liveCleanup 2 0 1 ∧
    (runPreviewEffect drv true frag now initSys).state.frameReq = some 0 ∧
    runCleanup (runPreviewEffect drv true frag now initSys).cleanup
        (runPreviewEffect drv true frag now initSys).state =
      { gl := { nextId := 5, liveShaders := [], livePrograms := [],
                liveBuffers := [3], liveVertexArrays := [4], consoleWarnings := [] },
        frameReq := none, nextReq := 1, resizeListener := false,
        error := none, compiled := true } ∧
    runCleanup (runPreviewEffect drv true frag now initSys).cleanup
        (runCleanup (runPreviewEffect drv true frag now initSys).cleanup
          (runPreviewEffect drv true frag now initSys).state) =
      runCleanup (runPreviewEffect drv true frag now initSys).cleanup
        (runPreviewEffect drv true frag now initSys).state := by
  have h := runPreviewEffect_success drv frag now initSys hctx halloc hprog hvs hfs hlink
  rw [h]
  refine ⟨rfl, rfl, rfl, rfl⟩

/-- Witness for the amended C3 at the fully co-operative driver. -/
theorem c3_cleanup_amended_witness :
    (runPreviewEffect okDriver true "void main() \x7b\x7d" 0 initSys).cleanup =
      Cleanup.liveCleanup 2 0 1 ∧
    (runPreviewEffect okDriver true "void main() \x7b\x7d" 0 initSys).state.frameReq =
      some 0 ∧
    runCleanup (runPreviewEffect okDriver true "void main() \x7b\x7d" 0 initSys).cleanup
        (runPreviewEffect okDriver true "void main() \x7b\x7d" 0 initSys).state =
      { gl := { nextId := 5, liveShaders := [], livePrograms := [],
                liveBuffers := [3], liveVertexArrays := [4], consoleWarnings := [] },
        frameReq := none, nextReq := 1, resizeListener := false,
        error := none, compiled := true } ∧
    runCleanup (runPreviewEffect okDriver true "void main() \x7b\x7d" 0 initSys).cleanup
        (runCleanup (runPreviewEffect okDriver true "void main() \x7b\x7d" 0 initSys).cleanup
          (runPreviewEffect okDriver true "void main() \x7b\x7d" 0 initSys).state) =
      runCleanup (runPreviewEffect okDriver true "void main() \x7b\x7d" 0 initSys).cleanup
        (runPreviewEffect okDriver true "void main() \x7b\x7d" 0 initSys).state :=
  c3_cleanup_amended okDriver "void main() \x7b\x7d" 0 (by decide) (by decide)
    (by decide) (by decide) (by decide) (by decide)

/-- C2 counterexample: on a driver that fails compilation with an empty
info log, `createShader` returns `none` — a value carrying no diagnostic
at all — and the only diagnostic it emits anywhere is the empty string
sent to `console.warn`, unmodified: no `CompilationFailure` value reaches
the caller and no generic message is substituted for the empty driver log,
refuting the claim that every failure yields a non-empty diagnostic
string returned to the caller. -/
theorem c2_no_diagnostic_counterexample :
    (createShader compileFailDriver glInit FRAGMENT_SHADER "x").1 = none ∧
    (createShader compileFailDriver glInit FRAGMENT_SHADER "x").2.consoleWarnings =
      [some ""] ∧
    ¬ ∃ logText : String, logText ≠ "" ∧
        (createShader compileFailDriver glInit FRAGMENT_SHADER "x").2.consoleWarnings =
          [some logText] := by
  refine ⟨rfl, rfl, ?_⟩
  rintro ⟨t, hne, hw⟩
  have hv : (createShader compileFailDriver glInit FRAGMENT_SHADER "x").2.consoleWarnings =
      [some ""] := rfl
  rw [hv] at hw
  exact hne (by injection (List.cons.injEq _ _ _ _ ▸ hw).1 with h; exact h.symm)

/-- C2 amended: on a driver-reported compile failure, `createShader`
releases the shader handle (the live-shader set is exactly what it was
before the call) and returns `none` to its caller — never a handle; the
driver's diagnostic log is only passed to `console.warn`, unmodified, and
may therefore be empty or null: no `CompilationFailure` value and no
generic fallback message exist in the code. -/
theorem c2_compile_failure_amended (drv : Driver) (gl : GLState) (ty : Nat)
    (src : String)
    (halloc : drv.allocShaderOk = true) (hfail : drv.compileOk ty src = false) :
    createShader drv gl ty src =
      (none,
        { gl with
          nextId := gl.nextId + 1,
          consoleWarnings := gl.consoleWarnings ++ [drv.shaderInfoLog src] }) := by
  simp [createShader, halloc, hfail]

/-- Witness for the amended C2 at a concrete failing driver. -/
theorem c2_compile_failure_amended_witness :
    createShader compileFailDriver glInit FRAGMENT_SHADER "x" =
      (none,
        { glInit with
          nextId := glInit.nextId + 1,
          consoleWarnings := glInit.consoleWarnings ++
            [compileFailDriver.shaderInfoLog "x"] }) :=
  c2_compile_failure_amended compileFailDriver glInit FRAGMENT_SHADER "x"
    (by decide) (by decide)

/-- C4 counterexample: for the rawText `float x;` (which contains no
`#version`), the output of `formatForPreview` does not end with the
rawText — the fixed fallback `main` block follows it — so the original
text is not a contiguous suffix of the output, refuting the claim. -/
theorem c4_not_suffix_counterexample :
    jsIncludes "float x;" "#version" = false ∧
    ¬ ("float x;".data <:+ (formatForPreview "float x;").data) := by
  exact ⟨by decide, by decide⟩

/-- C4 amended: for every rawText without `#version`, the output is
exactly header ++ rawText ++ footer, the header starts with the
`#version 300 es` pragma and contains the precision qualifier, the
`u_resolution`, `u_time` and `u_mouse` uniform declarations and the
`fragColor` output declaration, and the rawText occurs unchanged as a
contiguous substring (an infix, not a suffix) of the output. -/
theorem c4_wrap_amended (s : String) (h : jsIncludes s "#version" = false) :
    (formatForPreview s).data = previewHeader.data ++ s.data ++ previewFooter.data ∧
    "#version 300 es".data <+: (formatForPreview s).data ∧
    "precision highp float;".data <:+: previewHeader.data ∧
    "uniform vec2 u_resolution;".data <:+: previewHeader.data ∧
    "uniform float u_time;".data <:+: previewHeader.data ∧
    "uniform vec2 u_mouse;".data <:+: previewHeader.data ∧
    "out vec4 fragColor;".data <:+: previewHeader.data ∧
    s.data <:+: (formatForPreview s).data := by
  have heq : formatForPreview s = previewHeader ++ s ++ previewFooter := by
    simp [formatForPreview, h]
  have hd : (formatForPreview s).data =
      previewHeader.data ++ s.data ++ previewFooter.data := by
    rw [heq, String.data_append, String.data_append]
  refine ⟨hd, ?_, by decide, by decide, by decide, by decide, by decide, ?_⟩
  · rw [hd, List.append_assoc]
    have hpre : "#version 300 es".data <+: previewHeader.data := by decide
    exact hpre.trans (List.prefix_append _ _)
  · rw [hd]
    exact ⟨previewHeader.data, previewFooter.data, rfl⟩

/-- Witness for the amended C4 at the rawText `float x;`. -/
theorem c4_wrap_amended_witness :
    jsIncludes "float x;" "#version" = false ∧
    "float x;".data <:+: (formatForPreview "float x;").data :=
  ⟨by decide, (c4_wrap_amended "float x;" (by decide)).2.2.2.2.2.2.2⟩

/-- C5: for every rawText containing the substring `#version`,
`formatForPreview` is the identity: it returns its input byte for byte
unchanged. -/
theorem c5_version_identity (s : String) (hv : jsIncludes s "#version" = true) :
    formatForPreview s = s := by
  simp [formatForPreview, hv]

/-- Witness for C5 at the concrete shader source
`#version 300 es` + a main function. -/
theorem c5_version_identity_witness :
    jsIncludes "#version 300 es\nvoid main() \x7b\x7d\n" "#version" = true ∧
    formatForPreview "#version 300 es\nvoid main() \x7b\x7d\n" =
      "#version 300 es\nvoid main() \x7b\x7d\n" :=
  ⟨by decide, c5_version_identity _ (by decide)⟩

/-- C9: for every input whose JavaScript `trim` is empty, `transpileShader`
returns `code = ""`, `explanation = "No code provided."` and issues no
remote request (second component `false`), whatever the remote would have
answered. -/
theorem c9_blank_input_no_request (code sl tl : String) (remote : GenOutcome)
    (h : jsTrim code = "") :
    transpileShader code sl tl remote = (Except.ok ("", "No code provided."), false) := by
  simp [transpileShader, h]

/-- Witness for C9 at a whitespace-only input. -/
theorem c9_blank_input_no_request_witness :
    jsTrim "  \n\t " = "" ∧
    transpileShader "  \n\t " "HLSL" "GLSL" (GenOutcome.parsed (some "x") none) =
      (Except.ok ("", "No code provided."), false) :=
  ⟨by decide, c9_blank_input_no_request _ _ _ _ (by decide)⟩

/-- C10: `analyzeShader` never rejects: a transport failure resolves to
`Analysis failed: ` + message (so the result starts with
`Analysis failed:`), an absent or empty response text resolves to the
fixed `No analysis generated.`; by contrast `transpileShader` (on
non-blank input) and `optimizeShader` re-throw transport failures as
`Except.error`. -/
theorem c10_analyze_never_rejects (code lang m : String) :
    analyzeShader code lang (AnalyzeOutcome.transportError m) = "Analysis failed: " ++ m ∧
    "Analysis failed:".data <+:
      (analyzeShader code lang (AnalyzeOutcome.transportError m)).data ∧
    analyzeShader code lang (AnalyzeOutcome.responseText none) = "No analysis generated." ∧
    analyzeShader code lang (AnalyzeOutcome.responseText (some "")) =
      "No analysis generated." ∧
    transpileShader code "HLSL" "GLSL" (GenOutcome.transportError m) =
      (if jsTrim code = "" then (Except.ok ("", "No code provided."), false)
       else (Except.error ("Transpilation failed: " ++ m), true)) ∧
    optimizeShader code lang (GenOutcome.transportError m) =
      Except.error ("Optimization failed: " ++ m) := by
  refine ⟨rfl, ?_, rfl, by simp [analyzeShader, jsOr], ?_, rfl⟩
  · show "Analysis failed:".data <+: ("Analysis failed: " ++ m).data
    rw [String.data_append]
    have h1 : ("Analysis failed: ").data = ("Analysis failed:").data ++ [' '] := rfl
    rw [h1, List.append_assoc]
    exact List.prefix_append _ _
  · by_cases h : jsTrim code = "" <;> simp [transpileShader, h]

/-- C6: the frame clock start is the `performance.now()` reading taken
when the program becomes Live: a run entered at clock reading `now1`
yields a render environment with `startTime = now1`, and a later run
(recompile) entered at `now2` yields a fresh environment with
`startTime = now2`, regardless of any earlier state — elapsed time never
carries across recompiles.  Each frame at timestamp `t` sets the
elapsed-time uniform to `(t - startTime) * 0.001` (the elapsed
milliseconds expressed in seconds), and at the instant of the Live
transition itself the value set is `0`: time restarts from zero. -/
theorem c6_frameclock (drv : Driver) (frag : String) (now1 now2 t w h : ℚ)
    (s0 s1 : SysState) (loc : Nat)
    (hctx : drv.contextOk = true)
    (halloc : drv.allocShaderOk = true)
    (hprog : drv.allocProgramOk = true)
    (hvs : drv.compileOk VERTEX_SHADER DEFAULT_VERTEX_SHADER = true)
    (hfs : drv.compileOk FRAGMENT_SHADER frag = true)
    (hlink : drv.linkOk = true)
    (hloc : drv.uniformLocation "u_time" = some loc) :
    ∃ env1 env2 : RenderEnv,
      (runPreviewEffect drv true frag now1 s0).env = some env1 ∧
      (runPreviewEffect drv true frag now2 s1).env = some env2 ∧
      env1.startTime = now1 ∧
      env2.startTime = now2 ∧
      GLCommand.uniform1f loc ((t - env1.startTime) * (1 / 1000)) ∈
        renderCommands env1 t w h ∧
      GLCommand.uniform1f loc 0 ∈ renderCommands env2 env2.startTime w h := by
  have h1 := runPreviewEffect_success drv frag now1 s0 hctx halloc hprog hvs hfs hlink
  have h2 := runPreviewEffect_success drv frag now2 s1 hctx halloc hprog hvs hfs hlink
  rw [h1, h2]
  refine ⟨_, _, rfl, rfl, rfl, rfl, ?_, ?_⟩
  · simp [renderCommands, hloc]
  · have hz : (now2 - now2) * (1 / 1000 : ℚ) = 0 := by ring
    simp [renderCommands, hloc, hz]

/-- Witness for C6 on the fully co-operative driver, with the first run
entered at clock 5 and the recompile at clock 9. -/
theorem c6_frameclock_witness :
    ∃ env1 env2 : RenderEnv,
      (runPreviewEffect okDriver true "void main() \x7b\x7d" 5 initSys).env = some env1 ∧
      (runPreviewEffect okDriver true "void main() \x7b\x7d" 9 initSys).env = some env2 ∧
      env1.startTime = 5 ∧
      env2.startTime = 9 ∧
      GLCommand.uniform1f 1 ((12 - env1.startTime) * (1 / 1000)) ∈
        renderCommands env1 12 640 480 ∧
      GLCommand.uniform1f 1 0 ∈ renderCommands env2 env2.startTime 640 480 :=
  c6_frameclock okDriver "void main() \x7b\x7d" 5 9 12 640 480 initSys initSys 1
    (by decide) (by decide) (by decide) (by decide) (by decide) (by decide) (by decide)

/-- C7: while Live, one iteration of the render loop issues exactly the
call sequence select-program, bind-vertex-array, set elapsed-time
uniform, set resolution uniform, and a single `drawArrays(TRIANGLES, 0, 6)`
draw call (one triangle-list draw of 6 vertices and nothing else), then
reschedules itself, storing the revocable handle; the geometry bound is
the fixed 6-vertex (12-coordinate) full-screen quad whose two triangles
cover every point of the normalized-device-coordinate square
`[-1, 1] × [-1, 1]`; and the cleanup returned by the effect revokes the
stored handle. -/
theorem c7_render_loop (drv : Driver) (frag : String) (now t w h : ℚ)
    (s0 s1 : SysState) (lt lr hdl : Nat)
    (hctx : drv.contextOk = true)
    (halloc : drv.allocShaderOk = true)
    (hprog : drv.allocProgramOk = true)
    (hvs : drv.compileOk VERTEX_SHADER DEFAULT_VERTEX_SHADER = true)
    (hfs : drv.compileOk FRAGMENT_SHADER frag = true)
    (hlink : drv.linkOk = true)
    (hlt : drv.uniformLocation "u_time" = some lt)
    (hlr : drv.uniformLocation "u_resolution" = some lr) :
    ∃ env : RenderEnv,
      (runPreviewEffect drv true frag now s0).env = some env ∧
      env.bufferData = quadPositions ∧
      quadPositions.length = 2 * 6 ∧
      (∀ x y : ℚ, -1 ≤ x → x ≤ 1 → -1 ≤ y → y ≤ 1 →
        inTriangle (quadVertex 0) (quadVertex 1) (quadVertex 2) (x, y) ∨
        inTriangle (quadVertex 3) (quadVertex 4) (quadVertex 5) (x, y)) ∧
      renderCommands env t w h =
        [GLCommand.useProgram env.program,
         GLCommand.bindVertexArray env.vao,
         GLCommand.uniform1f lt ((t - env.startTime) * (1 / 1000)),
         GLCommand.uniform2f lr w h,
         GLCommand.drawArrays TRIANGLES 0 6] ∧
      (renderCommands env t w h).countP isDrawCommand = 1 ∧
      (renderStep env t w h hdl s1).2.frameReq = some hdl ∧
      (runCleanup (runPreviewEffect drv true frag now s0).cleanup
          (renderStep env t w h hdl s1).2).frameReq = none := by
  have hsucc := runPreviewEffect_success drv frag now s0 hctx halloc hprog hvs hfs hlink
  rw [hsucc]
  refine ⟨_, rfl, rfl, rfl, ?_, ?_, ?_, rfl, rfl⟩
  · intro x y hx1 hx2 hy1 hy2
    have hv0 : quadVertex 0 = ((-1 : ℚ), (-1 : ℚ)) := rfl
    have hv1 : quadVertex 1 = ((1 : ℚ), (-1 : ℚ)) := rfl
    have hv2 : quadVertex 2 = ((-1 : ℚ), (1 : ℚ)) := rfl
    have hv3 : quadVertex 3 = ((-1 : ℚ), (1 : ℚ)) := rfl
    have hv4 : quadVertex 4 = ((1 : ℚ), (-1 : ℚ)) := rfl
    have hv5 : quadVertex 5 = ((1 : ℚ), (1 : ℚ)) := rfl
    rcases le_total (x + y) 0 with hxy | hxy
    · left
      rw [hv0, hv1, hv2]
      refine ⟨(-x - y) / 2, (x + 1) / 2, (y + 1) / 2, by linarith, by linarith,
        by linarith, by ring, ?_, ?_⟩
      · show x = (-x - y) / 2 * (-1) + (x + 1) / 2 * 1 + (y + 1) / 2 * (-1)
        ring
      · show y = (-x - y) / 2 * (-1) + (x + 1) / 2 * (-1) + (y + 1) / 2 * 1
        ring
    · right
      rw [hv3, hv4, hv5]
      refine ⟨(1 - x) / 2, (1 - y) / 2, (x + y) / 2, by linarith, by linarith,
        by linarith, by ring, ?_, ?_⟩
      · show x = (1 - x) / 2 * (-1) + (1 - y) / 2 * 1 + (x + y) / 2 * 1
        ring
      · show y = (1 - x) / 2 * 1 + (1 - y) / 2 * (-1) + (x + y) / 2 * 1
        ring
  · simp [renderCommands, hlt, hlr]
  · simp [renderCommands, hlt, hlr, isDrawCommand]

/-- Witness for C7 on the fully co-operative driver at frame timestamp 12
with a 640 × 480 drawable. -/
theorem c7_render_loop_witness :
    ∃ env : RenderEnv,
      (runPreviewEffect okDriver true "void main() \x7b\x7d" 5 initSys).env = some env ∧
      env.bufferData = quadPositions ∧
      quadPositions.length = 2 * 6 ∧
      (∀ x y : ℚ, -1 ≤ x → x ≤ 1 → -1 ≤ y → y ≤ 1 →
        inTriangle (quadVertex 0) (quadVertex 1) (quadVertex 2) (x, y) ∨
        inTriangle (quadVertex 3) (quadVertex 4) (quadVertex 5) (x, y)) ∧
      renderCommands env 12 640 480 =
        [GLCommand.useProgram env.program,
         GLCommand.bindVertexArray env.vao,
         GLCommand.uniform1f 1 ((12 - env.startTime) * (1 / 1000)),
         GLCommand.uniform2f 2 640 480,
         GLCommand.drawArrays TRIANGLES 0 6] ∧
      (renderCommands env 12 640 480).countP isDrawCommand = 1 ∧
      (renderStep env 12 640 480 6 initSys).2.frameReq = some 6 ∧
      (runCleanup (runPreviewEffect okDriver true "void main() \x7b\x7d" 5 initSys).cleanup
          (renderStep env 12 640 480 6 initSys).2).frameReq = none :=
  c7_render_loop okDriver "void main() \x7b\x7d" 5 12 640 480 initSys initSys 1 2 6
    (by decide) (by decide) (by decide) (by decide) (by decide) (by decide)
    (by decide) (by decide)

/-- C8: when any of the three remote actions rejects (transport or parse
error), the corresponding App handler records the failure in the log list
only: `outputCode` and `explanation` keep their previous values (and for
optimize, `inputCode` too); in particular the fragment source fed to the
preview is unchanged, so re-running the preview effect on any driver gives
exactly the same outcome as before the failed call. -/
theorem c8_failures_leave_output_untouched (st : AppState) (l1 l2 e : String) :
    (handleTranspile st l1 l2 (Except.error e)).outputCode = st.outputCode ∧
    (handleTranspile st l1 l2 (Except.error e)).explanation = st.explanation ∧
    (handleTranspile st l1 l2 (Except.error e)).logs =
      ("error", e) :: ("info", "Compiling " ++ l1 ++ " to " ++ l2 ++ "...") :: st.logs ∧
    (handleOptimize st (Except.error e)).outputCode = st.outputCode ∧
    (handleOptimize st (Except.error e)).inputCode = st.inputCode ∧
    (handleOptimize st (Except.error e)).explanation = st.explanation ∧
    (handleAnalyze st (Except.error e)).outputCode = st.outputCode ∧
    (handleAnalyze st (Except.error e)).explanation = st.explanation ∧
    formatForPreview (handleTranspile st l1 l2 (Except.error e)).outputCode =
      formatForPreview st.outputCode ∧
    ∀ drv now s0,
      runPreviewEffect drv true (handleTranspile st l1 l2 (Except.error e)).outputCode now s0 =
        runPreviewEffect drv true st.outputCode now s0 := by
  have ht : (handleTranspile st l1 l2 (Except.error e)).outputCode = st.outputCode := by
    simp [handleTranspile, addLog]
  refine ⟨ht, by simp [handleTranspile, addLog], by simp [handleTranspile, addLog],
    ?_, ?_, ?_, ?_, ?_, by rw [ht], by intro drv now s0; rw [ht]⟩ <;>
    by_cases h : st.inputCode = "" <;>
    simp [handleOptimize, handleAnalyze, addLog, h]
